import Mathlib

/-!
Shallow embedding of the python-dabmot MOT codec (src/mot/__init__.py) and
proofs about its wire format and reassembly pipeline.

Bytes are modelled as `List Nat` (each element a byte value), bit strings as
`List Bool` (MSB first, exactly as the `bitarray` library lays them out).
Python exceptions are modelled by the `PyErr` type and fallible functions
return `Except PyErr _`.  The embedding follows the Python 3 semantics of the
source line by line; comments quote the corresponding source construct.
-/

namespace DabMot

/-- Python runtime errors raised by the modelled code paths. -/
inductive PyErr where
  | typeError
  | valueError
  | keyError
  | indexError
  | nameError
  | overflowError
  | attributeError
  deriving Repr, DecidableEq

/-- Value of a bit string, MSB first (`ba2int` / `int(bits.to01(), 2)`). -/
def bitsVal : List Bool → Nat
  | [] => 0
  | b :: rest => (cond b 1 0) * 2 ^ rest.length + bitsVal rest

/-- The `w`-bit big-endian representation of `n` (`int2ba(n, w)` when `n < 2^w`). -/
def natToBits : Nat → Nat → List Bool
  | 0, _ => []
  | w + 1, n => natToBits w (n / 2) ++ [decide (n % 2 = 1)]

/-- Model of `bitarray.util.int2ba(value, width)`: raises `OverflowError` when
the value does not fit in the requested width. -/
def int2ba (value width : Nat) : Except PyErr (List Bool) :=
  if value < 2 ^ width then .ok (natToBits width value) else .error .overflowError

/-- Value of one byte given by its 8 bits, MSB first. -/
def byteVal (a b c d e f g h : Bool) : Nat :=
  bitsVal [a, b, c, d, e, f, g, h]

/-- Model of `bitarray.tobytes()`: pack bits into bytes, zero-padding the final
partial byte on the right. -/
def bitsToBytes : List Bool → List Nat
  | [] => []
  | [a] => [byteVal a false false false false false false false]
  | [a, b] => [byteVal a b false false false false false false]
  | [a, b, c] => [byteVal a b c false false false false false]
  | [a, b, c, d] => [byteVal a b c d false false false false]
  | [a, b, c, d, e] => [byteVal a b c d e false false false]
  | [a, b, c, d, e, f] => [byteVal a b c d e f false false]
  | [a, b, c, d, e, f, g] => [byteVal a b c d e f g false]
  | a :: b :: c :: d :: e :: f :: g :: h :: rest =>
      byteVal a b c d e f g h :: bitsToBytes rest

/-- Model of `bitarray.frombytes(data)`: the bit string of a byte string. -/
def bytesToBits : List Nat → List Bool
  | [] => []
  | b :: rest => natToBits 8 b ++ bytesToBits rest

/-- Whether an `Except` result is a success (no exception raised). -/
def exceptOk {α : Type} : Except PyErr α → Bool
  | .ok _ => true
  | .error _ => false

theorem natToBits_length (w n : Nat) : (natToBits w n).length = w := by
  induction w generalizing n with
  | zero => rfl
  | succ w ih => simp [natToBits, ih]

theorem bitsVal_append (xs ys : List Bool) :
    bitsVal (xs ++ ys) = bitsVal xs * 2 ^ ys.length + bitsVal ys := by
  induction xs with
  | nil => simp [bitsVal]
  | cons b xs ih =>
      simp [bitsVal, ih, List.length_append, pow_add]
      ring

theorem bitsVal_natToBits (w n : Nat) (h : n < 2 ^ w) :
    bitsVal (natToBits w n) = n := by
  induction w generalizing n with
  | zero =>
      interval_cases n
      rfl
  | succ w ih =>
      have hdiv : n / 2 < 2 ^ w := by
        rw [pow_succ] at h
        omega
      have hr : bitsVal (natToBits w (n / 2)) = n / 2 := ih _ hdiv
      have hmod : (cond (decide (n % 2 = 1)) 1 0 : Nat) = n % 2 := by
        rcases Nat.mod_two_eq_zero_or_one n with h2 | h2 <;> simp [h2]
      calc bitsVal (natToBits (w + 1) n)
          = bitsVal (natToBits w (n / 2)) * 2 ^ ([decide (n % 2 = 1)].length)
              + bitsVal [decide (n % 2 = 1)] := bitsVal_append _ _
        _ = n / 2 * 2 + n % 2 := by
              simp [bitsVal, hr, hmod]
        _ = n := by omega

/-! ## Time codec (`encode_absolute_time`, `decode_absolute_time`,
`encode_relative_time`) -/

/-- A UTC timepoint as the source manipulates it: the integral Modified Julian
Day of its calendar date (`int(julian.to_jd(timepoint, fmt=mjd))`) together
with the time-of-day fields read off the `datetime` object.  `millisecond` is
`int(timepoint.microsecond / 1000)`. -/
structure TimePoint where
  mjd : Nat
  hour : Nat
  minute : Nat
  second : Nat
  millisecond : Nat
  deriving Repr, DecidableEq

/-- Model of `encode_absolute_time`.  `none` ("now") encodes as 32 zero bits;
otherwise a validity bit, the 17-bit MJD, two reserved bits, the UTC flag and
the short (hour/minute) or long (hour/minute/second/millisecond) form,
depending on `timepoint.second > 0`.  The input is already UTC, matching the
claims (the source converts other time zones to UTC first). -/
def encode_absolute_time : Option TimePoint → Except PyErr (List Nat)
  | none => .ok [0, 0, 0, 0]
  | some t => do
      let mjdBits ← int2ba t.mjd 17
      let tail ←
        if t.second > 0 then do
          let h ← int2ba t.hour 5
          let m ← int2ba t.minute 6
          let s ← int2ba t.second 6
          let ms ← int2ba t.millisecond 10
          pure ([true] ++ h ++ m ++ s ++ ms)
        else do
          let h ← int2ba t.hour 5
          let m ← int2ba t.minute 6
          pure ([false] ++ h ++ m)
      .ok (bitsToBytes ([true] ++ mjdBits ++ [false, false] ++ tail))

/-- Model of `decode_absolute_time`.  All-zero input decodes to `none`.
Otherwise the source computes `mjd` from bits 1..17 and builds the midnight
datetime `datetime.combine(julian.from_jd(mjd), time())`; the subsequent
`timepoint.replace(hour=...)`, `replace(minute=...)`, `replace(second=...)`
and `replace(microsecond=...)` calls return fresh `datetime` values that are
discarded, so the function returns the midnight timepoint in both UTC forms. -/
def decode_absolute_time (data : List Nat) : Option TimePoint :=
  let bits := bytesToBits data
  if bits.all (fun b => b = false) then none
  else
    let mjd := bitsVal ((bits.drop 1).take 17)
    if bits.getD 20 false then
      some { mjd := mjd, hour := 0, minute := 0, second := 0, millisecond := 0 }
    else
      some { mjd := mjd, hour := 0, minute := 0, second := 0, millisecond := 0 }

/-- Model of `encode_relative_time` on a non-negative `timedelta` given by its
total number of seconds.  `days` and `secs` mirror the `timedelta.days` and
`timedelta.seconds` attributes.  In the fourth band the source executes
`int2ba(2, 3)` (the value 2 in three bits) followed by `int2ba(6, days)` (the
value 6 in `days` bits), exactly as transcribed here. -/
def encode_relative_time (total : Nat) : Except PyErr (List Nat) :=
  let days := total / 86400
  let secs := total % 86400
  if total < 7620 then do
    let i ← int2ba (secs / 60 / 2) 6
    .ok (bitsToBytes (natToBits 2 0 ++ i))
  else if total < 113460 then do
    let i ← int2ba (secs / 60 / 30) 6
    .ok (bitsToBytes (natToBits 2 1 ++ i))
  else if total < 457200 then do
    let i ← int2ba ((secs / 3600 + days * 24) / 2) 6
    .ok (bitsToBytes (natToBits 2 2 ++ i))
  else if total < 5529600 then do
    let g ← int2ba 2 3
    let i ← int2ba 6 days
    .ok (bitsToBytes (g ++ i))
  else .error .valueError

/-! ## Header parameters: variants, `encode_data`, `tobytes`, `frombytes` -/

/-- The concrete header-parameter variants of the source.  `contentName`
carries the character-set indicator value and the encoded name bytes;
`mimeType` the raw MIME string bytes; `relativeExpiration` the offset as total
seconds; `compression` and `priority` their one-byte values. -/
inductive HeaderParam where
  | contentName (charset : Nat) (name : List Nat)
  | mimeType (mimetype : List Nat)
  | relativeExpiration (offset : Nat)
  | absoluteExpiration (timepoint : Option TimePoint)
  | compression (ctype : Nat)
  | priority (p : Nat)
  deriving Repr, DecidableEq

/-- The 6-bit ParamId passed to `HeaderParameter.__init__` by each variant. -/
def HeaderParam.paramId : HeaderParam → Nat
  | .contentName _ _ => 12
  | .mimeType _ => 16
  | .relativeExpiration _ => 4
  | .absoluteExpiration _ => 4
  | .compression _ => 17
  | .priority _ => 10

/-- Each variant's `encode_data`. -/
def HeaderParam.encode_data : HeaderParam → Except PyErr (List Nat)
  | .contentName charset name => do
      let cs ← int2ba charset 4
      .ok (bitsToBytes (cs ++ natToBits 4 0) ++ name)
  | .mimeType m => .ok m
  | .relativeExpiration offset => encode_relative_time offset
  | .absoluteExpiration tp => encode_absolute_time tp
  | .compression ctype =>
      -- self.__type.value.to_bytes(1, byteorder='big')
      if ctype < 256 then .ok [ctype] else .error .overflowError
  | .priority p =>
      if p < 256 then .ok [p] else .error .overflowError

/-- The preamble/payload branch structure of `HeaderParameter.tobytes`, as a
function of the ParamId and the already-encoded data.  Note the branches: a
4-byte payload (and only a 4-byte payload) selects PLI 2; the padding
statement inside that branch (`if data_length < 4`) is dead code and therefore
absent here; 2- and 3-byte payloads fall through to the PLI 3 short form; a
payload longer than 32770 bytes matches no branch and is returned with an
empty preamble. -/
def header_param_tobytes (id : Nat) (data : List Nat) : Except PyErr (List Nat) :=
  if data.length = 0 then
    match int2ba id 6 with
    | .error e => .error e
    | .ok pid => .ok (bitsToBytes (natToBits 2 0 ++ pid))
  else if data.length = 1 then
    match int2ba id 6 with
    | .error e => .error e
    | .ok pid => .ok (bitsToBytes (natToBits 2 1 ++ pid) ++ data)
  else if data.length = 4 then
    match int2ba id 6 with
    | .error e => .error e
    | .ok pid => .ok (bitsToBytes (natToBits 2 2 ++ pid) ++ data)
  else if data.length ≤ 127 then
    match int2ba id 6, int2ba data.length 7 with
    | .error e, _ => .error e
    | .ok _, .error e => .error e
    | .ok pid, .ok len =>
        .ok (bitsToBytes (natToBits 2 3 ++ pid ++ [false] ++ len) ++ data)
  else if data.length ≤ 32770 then
    match int2ba id 6, int2ba data.length 15 with
    | .error e, _ => .error e
    | .ok _, .error e => .error e
    | .ok pid, .ok len =>
        .ok (bitsToBytes (natToBits 2 3 ++ pid ++ [true] ++ len) ++ data)
  else .ok data

/-- `HeaderParameter.tobytes`: encode the data, then render the preamble. -/
def HeaderParam.tobytes (p : HeaderParam) : Except PyErr (List Nat) := do
  let data ← p.encode_data
  header_param_tobytes p.paramId data

/-- The preamble/payload branch structure of `DirectoryParameter.tobytes`:
identical to the header encoder except that any payload of at most 4 bytes
(and at least 2) selects PLI 2, without padding. -/
def directory_param_tobytes (id : Nat) (data : List Nat) : Except PyErr (List Nat) :=
  if data.length = 0 then
    match int2ba id 6 with
    | .error e => .error e
    | .ok pid => .ok (bitsToBytes (natToBits 2 0 ++ pid))
  else if data.length = 1 then
    match int2ba id 6 with
    | .error e => .error e
    | .ok pid => .ok (bitsToBytes (natToBits 2 1 ++ pid) ++ data)
  else if data.length ≤ 4 then
    match int2ba id 6 with
    | .error e => .error e
    | .ok pid => .ok (bitsToBytes (natToBits 2 2 ++ pid) ++ data)
  else if data.length ≤ 127 then
    match int2ba id 6, int2ba data.length 7 with
    | .error e, _ => .error e
    | .ok _, .error e => .error e
    | .ok pid, .ok len =>
        .ok (bitsToBytes (natToBits 2 3 ++ pid ++ [false] ++ len) ++ data)
  else if data.length ≤ 32770 then
    match int2ba id 6, int2ba data.length 15 with
    | .error e, _ => .error e
    | .ok _, .error e => .error e
    | .ok pid, .ok len =>
        .ok (bitsToBytes (natToBits 2 3 ++ pid ++ [true] ++ len) ++ data)
  else .ok data

/-- Model of `HeaderParameter.frombytes` under Python 3 semantics.  On empty
input, `ba2int(bits[:2])` raises `ValueError`.  With `PLI == 3` and a single
input byte, `bits[8]` raises `IndexError`.  On every other input the length
check `if data_length != len(data - data_start)` evaluates `data - data_start`
with `data : bytes` and `data_start : int`, which raises `TypeError`; the
registry dispatch below that line (which itself names the nonexistent
attribute `HeaderParameter.decoders`) is unreachable. -/
def frombytes (data : List Nat) : Except PyErr (HeaderParam × Nat) :=
  match data with
  | [] => .error .valueError
  | b0 :: rest =>
      let PLI := b0 / 64
      if PLI = 3 ∧ rest = [] then .error .indexError
      else .error .typeError

/-! ## Segment cache, completeness detector and pipeline -/

/-- A datagroup as consumed by the pipeline (external contract): `dgtype` is
`get_type()` (3 = header, 4 = body, 6 = directory), plus transport id, segment
index, last flag and payload bytes. -/
structure Datagroup where
  dgtype : Nat
  transportId : Nat
  segmentIndex : Nat
  last : Bool
  data : List Nat
  deriving Repr, DecidableEq

/-- Lookup in a Python dict modelled as an insertion-ordered association
list (`cache[t]`, raising `KeyError` when absent, is modelled by matching on
the result). -/
def lookupEntry : List (Nat × List Datagroup) → Nat → Option (List Datagroup)
  | [], _ => none
  | (k, v) :: rest, t => if k = t then some v else lookupEntry rest t

/-- The datagroups stored under a transport id, defaulting to the empty list
when the id is absent (used by the specification-side predicates). -/
def lookupD (cache : List (Nat × List Datagroup)) (t : Nat) : List Datagroup :=
  (lookupEntry cache t).getD []

/-- The loop of `check_type_complete`: each datagroup's `segment_index` must
be exactly one more than its predecessor's. -/
def run_ok : List Datagroup → Bool
  | [] => true
  | [_] => true
  | a :: b :: rest => (b.segmentIndex == a.segmentIndex + 1) && run_ok (b :: rest)

/-- `datagroups[-1].last` (`false` on the empty list, which the caller has
already excluded). -/
def lastFlag : List Datagroup → Bool
  | [] => false
  | [d] => d.last
  | _ :: b :: rest => lastFlag (b :: rest)

/-- The body of `check_type_complete` once the datagroup list is in hand: an
empty list is never complete; the first datagroup must have segment index 0;
the final datagroup must be flagged last; indices must be consecutive. -/
def check_complete (dgs : List Datagroup) : Bool :=
  match dgs with
  | [] => false
  | d :: rest =>
      (d.segmentIndex == 0) && lastFlag (d :: rest) && run_ok (d :: rest)

/-- The `transport_id is falsy` branch of `check_type_complete`: scan the
cache keys in order and take the whole entry of the first key whose first
datagroup has the requested type (`cache[k][0].get_type() == type`, raising
`IndexError` on an empty entry); an exhausted scan leaves `datagroups = []`. -/
def scan_first : List (Nat × List Datagroup) → Nat → Except PyErr (List Datagroup)
  | [], _ => .ok []
  | (_, dgs) :: rest, ty =>
      match dgs with
      | [] => .error .indexError
      | d :: _ => if d.dgtype == ty then .ok dgs else scan_first rest ty

/-- Python truthiness of the `transport_id` argument (`if transport_id:`):
`None` and `0` are both falsy. -/
def truthy : Option Nat → Bool
  | none => false
  | some n => n != 0

/-- Model of the inner function `check_type_complete(type, transport_id)` of
`is_complete`; `t` is the outer transport id captured by the closure (the
truthy branch filters `cache[t]`, not `cache[transport_id]`). -/
def check_type_complete (cache : List (Nat × List Datagroup)) (t ty : Nat)
    (transport_id : Option Nat) : Except PyErr Bool :=
  if truthy transport_id then
    match lookupEntry cache t with
    | none => .error .keyError
    | some dgs => .ok (check_complete (dgs.filter (fun d => d.dgtype == ty)))
  else
    match scan_first cache ty with
    | .error e => .error e
    | .ok dgs => .ok (check_complete dgs)

/-- Model of `is_complete(t, cache)`: bodies (type 4) for `t` first, then a
complete header (type 3) for `t` or, failing that, a complete directory
(type 6) located by the typed scan. -/
def is_complete (t : Nat) (cache : List (Nat × List Datagroup)) : Except PyErr Bool :=
  match check_type_complete cache t 4 (some t) with
  | .error e => .error e
  | .ok false => .ok false
  | .ok true =>
      match check_type_complete cache t 3 (some t) with
      | .error e => .error e
      | .ok true => .ok true
      | .ok false =>
          match check_type_complete cache t 6 none with
          | .error e => .error e
          | .ok b => .ok b

/-- The completeness predicate exactly as the claim states it: the type-4
datagroups under `t` form a contiguous run from 0 ending in a last flag, and
either the type-3 datagroups under `t` do too, or at least one cache entry's
type-6 datagroups do, anywhere in the cache. -/
def claim_complete (t : Nat) (cache : List (Nat × List Datagroup)) : Bool :=
  check_complete ((lookupD cache t).filter (fun d => d.dgtype == 4)) &&
  (check_complete ((lookupD cache t).filter (fun d => d.dgtype == 3)) ||
   cache.any (fun p => check_complete (p.2.filter (fun d => d.dgtype == 6))))

/-- Total counterpart of `scan_first` used by the amended completeness
predicate: the scan stops, yielding nothing, at an entry with no datagroups
(where the code would raise). -/
def scan_firstD : List (Nat × List Datagroup) → Nat → List Datagroup
  | [], _ => []
  | (_, dgs) :: rest, ty =>
      match dgs with
      | [] => []
      | d :: _ => if d.dgtype == ty then dgs else scan_firstD rest ty

/-- The amended completeness predicate: as the claim, except that the
directory clause inspects only the first cache entry (in insertion order)
whose first datagroup has type 6. -/
def amended_complete (t : Nat) (cache : List (Nat × List Datagroup)) : Bool :=
  check_complete ((lookupD cache t).filter (fun d => d.dgtype == 4)) &&
  (check_complete ((lookupD cache t).filter (fun d => d.dgtype == 3)) ||
   check_complete (scan_firstD cache 6))

/-- The assembled object: name parameter, body bytes, content type pair,
transport id and parameter list. -/
structure MotObject where
  name : HeaderParam
  body : List Nat
  contentType : Nat × Nat
  transportId : Nat
  params : List HeaderParam
  deriving Repr, DecidableEq

/-- The full cache object: the dict of datagroups plus the lazily-computed
`directory` attribute mapping transport ids to content type and parameters. -/
structure Cache where
  entries : List (Nat × List Datagroup)
  directory : Option (List (Nat × ((Nat × Nat) × List HeaderParam)))
  deriving Repr, DecidableEq

/-- Python falsiness of `cache.directory` (`if not cache.directory:`):
`None` and the empty dict are both falsy. -/
def dirFalsy : Option (List (Nat × ((Nat × Nat) × List HeaderParam))) → Bool
  | none => true
  | some l => l.isEmpty

/-- Lookup in the decoded directory mapping. -/
def dirLookup : List (Nat × ((Nat × Nat) × List HeaderParam)) → Nat →
    Option ((Nat × Nat) × List HeaderParam)
  | [], _ => none
  | (k, v) :: rest, t => if k = t then some v else dirLookup rest t

/-- Whether a parameter is a `ContentName` (`isinstance(param, ContentName)`). -/
def isContentName : HeaderParam → Bool
  | .contentName _ _ => true
  | _ => false

/-- The directory-building loop of `compile_object` under Python 3 semantics:
`directory` starts as the str `''`; scanning the cache keys, an entry with no
datagroups raises `IndexError` at `cache[k][0]`; the first entry whose first
datagroup has type 6 raises `TypeError` at `directory += datagroup.get_data()`
(str plus bytes); if no such entry exists, `decode_directory_object('')`
raises `TypeError` at `bits.frombytes(directory)` (str instead of bytes). -/
def dir_build : List (Nat × List Datagroup) → Except PyErr MotObject
  | [] => .error .typeError
  | (_, []) :: _ => .error .indexError
  | (_, d :: _) :: rest =>
      if d.dgtype == 6 then .error .typeError else dir_build rest

/-- Model of `compile_object(transport_id, cache)` under Python 3 semantics.
`header` starts as the str `''`; when any type-3 datagroup exists,
`header += datagroup.get_data()` (str plus bytes) raises `TypeError` before
any header byte is examined.  With no type-3 datagroups the directory branch
runs: a falsy `cache.directory` triggers `dir_build`; with a populated
directory, a missing transport id raises `KeyError`; otherwise
`body += datagroup.get_data()` raises `TypeError` once a type-4 datagroup
exists, and with none the function fails at `ValueError` (either no
`ContentName` among the parameters, or `MotObject` rejecting the str body). -/
def compile_object (transport_id : Nat) (cache : Cache) : Except PyErr MotObject :=
  match lookupEntry cache.entries transport_id with
  | none => .error .keyError
  | some datagroups =>
      match datagroups.filter (fun d => d.dgtype == 3) with
      | _ :: _ => .error .typeError
      | [] =>
          if dirFalsy cache.directory then dir_build cache.entries
          else
            match cache.directory with
            | none => .error .typeError
            | some dir =>
                match dirLookup dir transport_id with
                | none => .error .keyError
                | some _ =>
                    match datagroups.filter (fun d => d.dgtype == 4) with
                    | _ :: _ => .error .typeError
                    | [] => .error .valueError

/-- Model of `decode_objects` fed a list of datagroups, under Python 3
semantics: the generator body evaluates `isinstance(data, file)` before
reaching the list branch, and the name `file` does not exist in Python 3, so
iteration raises `NameError` before any datagroup is ingested and no object is
ever yielded. -/
def decode_objects (_data : List Datagroup) : Except PyErr (List MotObject) :=
  .error .nameError

/-! ## Helper lemmas about the bit packing -/

theorem bitsToBytes_append8 (xs ys : List Bool) (h : xs.length = 8) :
    bitsToBytes (xs ++ ys) = bitsVal xs :: bitsToBytes ys := by
  rcases xs with _ | ⟨a, xs⟩
  · simp at h
  rcases xs with _ | ⟨b, xs⟩
  · simp at h
  rcases xs with _ | ⟨c, xs⟩
  · simp at h
  rcases xs with _ | ⟨d, xs⟩
  · simp at h
  rcases xs with _ | ⟨e, xs⟩
  · simp at h
  rcases xs with _ | ⟨f, xs⟩
  · simp at h
  rcases xs with _ | ⟨g, xs⟩
  · simp at h
  rcases xs with _ | ⟨h', xs⟩
  · simp at h
  rcases xs with _ | ⟨i, xs⟩
  · simp [bitsToBytes, byteVal]
  · simp at h

theorem bitsToBytes_len8 (bs : List Bool) (h : bs.length = 8) :
    bitsToBytes bs = [bitsVal bs] := by
  have := bitsToBytes_append8 bs [] h
  simpa using this

theorem preamble_byte (p id : Nat) (hp : p < 4) (hid : id < 64) :
    bitsToBytes (natToBits 2 p ++ natToBits 6 id) = [p * 64 + id] := by
  have h8 : (natToBits 2 p ++ natToBits 6 id).length = 8 := by
    simp [natToBits_length]
  rw [bitsToBytes_len8 _ h8, bitsVal_append,
      bitsVal_natToBits 2 p (by norm_num [hp]),
      bitsVal_natToBits 6 id (by norm_num [hid]), natToBits_length]
  norm_num

theorem preamble_pli3_short (id n : Nat) (hid : id < 64) (hn : n < 128) :
    bitsToBytes (natToBits 2 3 ++ natToBits 6 id ++ [false] ++ natToBits 7 n)
      = [192 + id, n] := by
  have h8 : (natToBits 2 3 ++ natToBits 6 id).length = 8 := by
    simp [natToBits_length]
  have h8' : (([false] : List Bool) ++ natToBits 7 n).length = 8 := by
    simp [natToBits_length]
  rw [List.append_assoc (natToBits 2 3 ++ natToBits 6 id) [false] (natToBits 7 n),
      bitsToBytes_append8 _ _ h8, bitsToBytes_len8 _ h8',
      bitsVal_append (natToBits 2 3) (natToBits 6 id),
      bitsVal_append [false] (natToBits 7 n),
      bitsVal_natToBits 2 3 (by norm_num),
      bitsVal_natToBits 6 id (by norm_num [hid]),
      bitsVal_natToBits 7 n (by norm_num [hn]), natToBits_length, natToBits_length]
  norm_num [bitsVal]

theorem scan_firstD_of_ok (cache : List (Nat × List Datagroup)) (ty : Nat)
    (dgs : List Datagroup) (h : scan_first cache ty = .ok dgs) :
    scan_firstD cache ty = dgs := by
  induction cache with
  | nil =>
      simp [scan_first] at h
      simp [scan_firstD, ← h]
  | cons p rest ih =>
      obtain ⟨k, l⟩ := p
      match l with
      | [] => simp [scan_first] at h
      | d :: ds =>
          by_cases hd : (d.dgtype == ty) = true
          · simp [scan_first, hd] at h
            simp [scan_firstD, hd, h]
          · simp only [scan_first, hd] at h
            simp only [Bool.false_eq_true, if_false] at h
            simp only [scan_firstD, hd, Bool.false_eq_true, if_false]
            exact ih h

theorem scan_firstD_of_error (cache : List (Nat × List Datagroup)) (ty : Nat)
    (e : PyErr) (h : scan_first cache ty = .error e) :
    scan_firstD cache ty = [] := by
  induction cache with
  | nil => simp [scan_first] at h
  | cons p rest ih =>
      obtain ⟨k, l⟩ := p
      match l with
      | [] => simp [scan_firstD]
      | d :: ds =>
          by_cases hd : (d.dgtype == ty) = true
          · simp [scan_first, hd] at h
          · simp only [scan_first, hd, Bool.false_eq_true, if_false] at h
            simp only [scan_firstD, hd, Bool.false_eq_true, if_false]
            exact ih h

/-! ## Claim theorems -/

/-- C2 (amended): for every cache and every nonzero transport id `t`,
`is_complete(t, cache)` returns `True` iff the type-4 datagroups stored under
`t` form a contiguous segment-index run starting at 0 whose final element has
`last = true`, and either the type-3 datagroups stored under `t` satisfy the
same rule, or the first cache entry (in insertion order) whose first
datagroup has type 6 satisfies it as a whole. -/
theorem c2_is_complete_amended (t : Nat) (cache : List (Nat × List Datagroup))
    (ht : t ≠ 0) :
    is_complete t cache = .ok true ↔ amended_complete t cache = true := by
  have htr : truthy (some t) = true := by
    simp [truthy, ht]
  have hnone : truthy none = false := rfl
  have hnil : check_complete [] = false := rfl
  cases hl : lookupEntry cache t with
  | none =>
      simp [is_complete, check_type_complete, htr, hl, amended_complete,
            lookupD, hnil]
  | some dgs =>
      cases hb : check_complete (List.filter (fun d => d.dgtype == 4) dgs) with
      | false =>
          simp [is_complete, check_type_complete, htr, hl, hb,
                amended_complete, lookupD]
      | true =>
          cases hh : check_complete (List.filter (fun d => d.dgtype == 3) dgs) with
          | true =>
              simp [is_complete, check_type_complete, htr, hl, hb, hh,
                    amended_complete, lookupD]
          | false =>
              cases hscan : scan_first cache 6 with
              | error e =>
                  have hD := scan_firstD_of_error cache 6 e hscan
                  simp [is_complete, check_type_complete, htr, hnone, hl, hb, hh,
                        hscan, amended_complete, lookupD, hD, hnil]
              | ok dgs6 =>
                  have hD := scan_firstD_of_ok cache 6 dgs6 hscan
                  simp [is_complete, check_type_complete, htr, hnone, hl, hb, hh,
                        hscan, amended_complete, lookupD, hD]

/-- C2 witness: the amended theorem applied to a concrete cache holding the
claim's complete body run (segment indices 0,1,2 with `last` only on index 2)
together with a complete single-segment header, all under transport id 1. -/
theorem c2_is_complete_amended_witness :
    (1 : Nat) ≠ 0
  ∧ (is_complete 1 [(1, [⟨3, 1, 0, true, []⟩, ⟨4, 1, 0, false, []⟩,
                          ⟨4, 1, 1, false, []⟩, ⟨4, 1, 2, true, []⟩])] = .ok true
      ↔ amended_complete 1 [(1, [⟨3, 1, 0, true, []⟩, ⟨4, 1, 0, false, []⟩,
                          ⟨4, 1, 1, false, []⟩, ⟨4, 1, 2, true, []⟩])] = true) :=
  ⟨by decide,
   c2_is_complete_amended 1
     [(1, [⟨3, 1, 0, true, []⟩, ⟨4, 1, 0, false, []⟩,
           ⟨4, 1, 1, false, []⟩, ⟨4, 1, 2, true, []⟩])] (by decide)⟩

/-- C2 counterexample: the claim's equivalence fails as stated.  First input:
transport id 0 has a complete body and header of its own, yet `is_complete`
returns `False` (the falsy id sends both per-id checks into the
first-matching-entry scan).  Second input: transport id 1 has a complete body
and no header, and a complete type-6 group exists in the cache (under key 3),
yet `is_complete` returns `False` because the scan stops at the incomplete
type-6 group under key 2. -/
theorem c2_counterexample :
    is_complete 0 [(0, [⟨3, 0, 0, true, []⟩, ⟨4, 0, 0, true, []⟩])] = .ok false
  ∧ claim_complete 0 [(0, [⟨3, 0, 0, true, []⟩, ⟨4, 0, 0, true, []⟩])] = true
  ∧ is_complete 1 [(1, [⟨4, 1, 0, true, []⟩]), (2, [⟨6, 2, 1, true, []⟩]),
                   (3, [⟨6, 3, 0, true, []⟩])] = .ok false
  ∧ claim_complete 1 [(1, [⟨4, 1, 0, true, []⟩]), (2, [⟨6, 2, 1, true, []⟩]),
                      (3, [⟨6, 3, 0, true, []⟩])] = true :=
  ⟨rfl, rfl, rfl, rfl⟩

set_option maxRecDepth 8000 in
/-- C1: the round trip `decode(encode(p)) = p` fails for every variant and
every PLI class, because `HeaderParameter.frombytes` always raises: its length
check evaluates `data - data_start` (bytes minus int), a `TypeError`.  The
encodings below cover PLI 0 (empty payload), PLI 1 (1 byte), PLI 2 (4 bytes),
PLI 3 with `Ext=0` (5 bytes) and PLI 3 with `Ext=1` (130 bytes); the decoder
errors on each of them instead of returning the parameter. -/
theorem c1_roundtrip_code_bug :
    (HeaderParam.tobytes (.mimeType []) = .ok [16]
      ∧ frombytes [16] = .error .typeError)
  ∧ (HeaderParam.tobytes (.priority 4) = .ok [74, 4]
      ∧ frombytes [74, 4] = .error .typeError)
  ∧ (HeaderParam.tobytes (.absoluteExpiration (some ⟨55419, 12, 34, 0, 0⟩))
        = .ok [132, 182, 30, 195, 34]
      ∧ frombytes [132, 182, 30, 195, 34] = .error .typeError)
  ∧ (HeaderParam.tobytes (.contentName 4 [84, 69, 83, 84])
        = .ok [204, 5, 64, 84, 69, 83, 84]
      ∧ frombytes [204, 5, 64, 84, 69, 83, 84] = .error .typeError)
  ∧ (HeaderParam.tobytes (.mimeType (List.replicate 130 65))
        = .ok (208 :: 128 :: 130 :: List.replicate 130 65)
      ∧ frombytes (208 :: 128 :: 130 :: List.replicate 130 65)
          = .error .typeError) :=
  ⟨⟨rfl, rfl⟩, ⟨rfl, rfl⟩, ⟨rfl, rfl⟩, ⟨rfl, rfl⟩, ⟨rfl, rfl⟩⟩

/-- C3: the day-granularity band of `encode_relative_time` is broken.  For a
10-day duration the claim requires the byte `0b11001010` (granularity 3,
interval 10), but the source executes `int2ba(2, 3)` followed by
`int2ba(6, days)`, producing the two bytes `[64, 48]`.  Moreover a duration
strictly between 63 and 64 days does not raise, although the claim says every
duration over 63 days must. -/
theorem c3_relative_time_code_bug :
    encode_relative_time (10 * 86400) = .ok [64, 48]
  ∧ ([64, 48] : List Nat) ≠ [202]
  ∧ 63 * 86400 < 5486400
  ∧ exceptOk (encode_relative_time 5486400) = true :=
  ⟨rfl, by decide, by decide, rfl⟩

/-- C5: `encode_absolute_time None` gives four zero bytes and an all-zero
input decodes to `None`, as claimed; but the round trip fails for non-null
timepoints: decoding the encoding of 2010-08-11T12:34:00Z (MJD 55419) yields
midnight of that day, because every `timepoint.replace(...)` result in
`decode_absolute_time` is discarded. -/
theorem c5_absolute_time_code_bug :
    encode_absolute_time none = .ok [0, 0, 0, 0]
  ∧ decode_absolute_time [0, 0, 0, 0] = none
  ∧ encode_absolute_time (some ⟨55419, 12, 34, 0, 0⟩) = .ok [182, 30, 195, 34]
  ∧ decode_absolute_time [182, 30, 195, 34] = some ⟨55419, 0, 0, 0, 0⟩
  ∧ (⟨55419, 0, 0, 0, 0⟩ : TimePoint) ≠ ⟨55419, 12, 34, 0, 0⟩ :=
  ⟨rfl, rfl, rfl, rfl, by decide⟩

/-- C4 counterexample: a header parameter with a 2-byte payload (ParamId 16,
payload "ab") is emitted with PLI 3 and an explicit length byte, not with the
claimed PLI 2 preamble and zero-padding to 4 bytes. -/
theorem c4_counterexample :
    header_param_tobytes 16 [97, 98] = .ok [208, 2, 97, 98]
  ∧ ([208, 2, 97, 98] : List Nat) ≠ [144, 97, 98, 0, 0]
  ∧ 208 / 64 = 3 :=
  ⟨rfl, by decide, rfl⟩

/-- C4 (amended): the header-parameter encoder emits the PLI 2 preamble only
for payloads of exactly 4 bytes, and never pads; 2- and 3-byte payloads get
the PLI 3 short form (preamble, Ext=0, 7-bit length).  The directory encoder
emits PLI 2 for all payloads of 2 to 4 bytes, also without padding. -/
theorem c4_encoders_amended (id : Nat) (data : List Nat) (hid : id < 64)
    (h2 : 2 ≤ data.length) (h4 : data.length ≤ 4) :
    header_param_tobytes id data =
      .ok (if data.length = 4 then (128 + id) :: data
           else (192 + id) :: data.length :: data)
  ∧ directory_param_tobytes id data = .ok ((128 + id) :: data) := by
  have hid' : id < 2 ^ 6 := by norm_num [hid]
  have h0 : ¬ data.length = 0 := by omega
  have h1 : ¬ data.length = 1 := by omega
  constructor
  · by_cases hlen : data.length = 4
    · simp only [header_param_tobytes, h0, h1, hlen, if_false, if_true,
                 int2ba, hid', reduceIte]
      rw [preamble_byte 2 id (by norm_num) hid]
      simp
    · have h127 : data.length ≤ 127 := by omega
      have h127' : data.length < 2 ^ 7 := by omega
      simp only [header_param_tobytes, h0, h1, hlen, h127, if_false, if_true,
                 int2ba, hid', h127', reduceIte]
      rw [preamble_pli3_short id data.length hid (by omega)]
      simp [hlen]
  · simp only [directory_param_tobytes, h0, h1, h4, if_false, if_true,
               int2ba, hid', reduceIte]
    rw [preamble_byte 2 id (by norm_num) hid]
    simp

/-- C4 witness: the amended statement at ParamId 16 with the 3-byte payload
"abc": the header encoder gives the PLI 3 short form, the directory encoder
the PLI 2 form. -/
theorem c4_encoders_amended_witness :
    header_param_tobytes 16 [97, 98, 99] =
      .ok (if ([97, 98, 99] : List Nat).length = 4 then (128 + 16) :: [97, 98, 99]
           else (192 + 16) :: ([97, 98, 99] : List Nat).length :: [97, 98, 99])
  ∧ directory_param_tobytes 16 [97, 98, 99] = .ok ((128 + 16) :: [97, 98, 99]) :=
  c4_encoders_amended 16 [97, 98, 99] (by decide) (by decide) (by decide)

/-- C6: a cache in which transport id 1 has both a complete header and body
and a complete directory exists under key 2 is complete, but compiling it
raises `TypeError` (the str `''` is concatenated with the header datagroup's
bytes) instead of building the object from its header. -/
theorem c6_header_precedence_code_bug :
    is_complete 1 [(1, [⟨3, 1, 0, true, [64, 84]⟩, ⟨4, 1, 0, true, [9]⟩]),
                   (2, [⟨6, 2, 0, true, [0]⟩])] = .ok true
  ∧ compile_object 1 ⟨[(1, [⟨3, 1, 0, true, [64, 84]⟩, ⟨4, 1, 0, true, [9]⟩]),
                       (2, [⟨6, 2, 0, true, [0]⟩])], none⟩ = .error .typeError :=
  ⟨rfl, rfl⟩

/-- C7: feeding the pipeline the single complete header+body pair for
transport id 7 yields no `MotObject` at all: the generator raises `NameError`
at `isinstance(data, file)` before ingesting any datagroup. -/
theorem c7_pipeline_code_bug :
    decode_objects [⟨3, 7, 0, true, [64, 84]⟩, ⟨4, 7, 0, true, [1, 2, 3]⟩]
      = .error .nameError :=
  rfl

/-- C8: the decoder's length check never produces a length-mismatch error.  A
buffer signalling a 100-byte payload but carrying none raises `TypeError`
(bytes minus int), and so does a buffer whose length matches the signalled
length exactly. -/
theorem c8_length_check_code_bug :
    frombytes [193, 100] = .error .typeError
  ∧ frombytes [65, 7] = .error .typeError
  ∧ PyErr.typeError ≠ PyErr.valueError :=
  ⟨rfl, rfl, by decide⟩

/-- C9: decoding a parameter whose id (63) has no registered decoder raises
`TypeError` at the length check; the unknown-parameter branch below it is
never reached, so no condition reporting the id and consumed length is ever
produced. -/
theorem c9_unknown_parameter_code_bug :
    frombytes [63] = .error .typeError :=
  rfl

/-- C10: `is_complete` for transport id 0 does not examine transport id 0's
own datagroups: in a cache where id 0 holds only a header and id 7 holds a
complete body, `is_complete 0` returns `True` although id 0 has no body
datagroups at all (`if transport_id:` treats the id 0 as falsy and both
per-id checks fall into the any-entry scan). -/
theorem c10_transport_id_zero_code_bug :
    is_complete 0 [(0, [⟨3, 0, 0, true, []⟩]), (7, [⟨4, 7, 0, true, []⟩])]
      = .ok true
  ∧ (lookupD [(0, [⟨3, 0, 0, true, []⟩]), (7, [⟨4, 7, 0, true, []⟩])] 0).filter
      (fun d => d.dgtype == 4) = [] :=
  ⟨rfl, rfl⟩

end DabMot


